import Mathlib

/-!
Verification development for the siteManager repository: a shallow embedding
of main.py (startup check, login, logout and dashboard route handlers over a
cookie session holding the single key "user-mail") and of Utility.py
(ListConf, extractServerName), with theorems settling the specified
properties of the Session Gate, the Route Dispatcher and the utilities.
-/

namespace SiteManager

/-- Process environment as read by os.getenv at startup: the MAIL and PASSWD
variables, each absent (none) when unset. -/
structure Env where
  mail : Option String
  passwd : Option String
deriving DecidableEq

/-- Credentials held for the process lifetime once startup has succeeded:
expected_mail from MAIL and expected_password from PASSWD. -/
structure Config where
  mail : String
  passwd : String
deriving DecidableEq

/-- Outcome of the module-level startup check of main.py lines 20-22: the
process either aborts after writing a critical log entry and calling the bare
builtin exit(), which raises SystemExit(None) and terminates the interpreter
with exit status 0, or starts with both credentials available. In the aborted
case app.run is never reached, so no route handler can run. -/
inductive StartupResult where
  | aborted (criticalLog : String) (exitCode : Nat)
  | started (cfg : Config)
deriving DecidableEq

/-- Embedding of main.py lines 20-22: if os.getenv("MAIL") is None or
os.getenv("PASSWD") is None, log critical "Env variable not found!!!" and
exit(). The check tests only for absence; any present string, the empty
string included, passes it. A bare exit() terminates with exit status 0. -/
def startup (e : Env) : StartupResult :=
  match e.mail, e.passwd with
  | some m, some p => .started ⟨m, p⟩
  | _, _ => .aborted "Env variable not found!!!" 0

/-- Server-side session of one client: the single key "user-mail" is the only
key the code ever touches, held here as none when the key is absent. -/
structure Session where
  userMail : Option String
deriving DecidableEq

/-- Form body of a request to /login: request.form.get("usr-email") and
request.form.get("usr-passwd"), each none when the field is missing. -/
structure Form where
  usrEmail : Option String
  usrPasswd : Option String
deriving DecidableEq

/-- HTTP method of a request; the login and dashboard routes accept GET and
POST. -/
inductive Method where
  | get
  | post
deriving DecidableEq

/-- Context passed to render_template for login.html. -/
structure ToastContext where
  showToast : Bool
  type : String
  msg : String
deriving DecidableEq

/-- Response of a route handler: a redirect to url_for of the named endpoint,
a rendered login page with its toast context, a rendered dashboard page with
its avtr context, or plain text. -/
inductive Response where
  | redirect (target : String)
  | renderLogin (context : ToastContext)
  | renderDashboard (avtr : String)
  | text (body : String)
deriving DecidableEq

/-- Python slicing s[0:2] at main.py:80, character based: at most the first
two characters, with no padding when fewer exist. -/
def pySlice2 (s : String) : String := ⟨s.data.take 2⟩

/-- Python str.upper character by character, which on the ASCII data the code
handles coincides with Char.toUpper. -/
def pyUpper (s : String) : String := ⟨s.data.map Char.toUpper⟩

/-- Session Gate query of spec 4.1: the comparison performed at main.py:34
and main.py:78, session.get("user-mail", None) == os.getenv("MAIL"). -/
def isAuthenticated (cfg : Config) (s : Session) : Bool :=
  decide (s.userMail = some cfg.mail)

/-- Embedding of the POST branch of the login route, main.py lines 37-60: the
Session Gate login operation of spec 4.1. mail and passwd come from
request.form.get and may be absent; os.getenv("MAIL") and os.getenv("PASSWD")
are cfg.mail and cfg.passwd, both present because startup succeeded. Python
evaluates None != somestring as True, embedded as inequality on
Option String. -/
def login (cfg : Config) (s : Session) (mail passwd : Option String) :
    Response × Session :=
  if mail ≠ some cfg.mail then
    (.renderLogin ⟨true, "error", "Invalid User Email"⟩, s)
  else if passwd ≠ some cfg.passwd then
    (.renderLogin ⟨true, "error", "Invalid User Password"⟩, s)
  else
    (.redirect "dashboard", ⟨mail⟩)

/-- Embedding of the full login route handler, main.py lines 32-64: an
already-authenticated session is redirected to the dashboard before the
method is examined, a POST otherwise runs the gate on the form fields, and a
GET otherwise renders the login page with no toast. -/
def loginRoute (cfg : Config) (m : Method) (f : Form) (s : Session) :
    Response × Session :=
  if s.userMail = some cfg.mail then
    (.redirect "dashboard", s)
  else
    match m with
    | .post => login cfg s f.usrEmail f.usrPasswd
    | .get => (.renderLogin ⟨false, "", ""⟩, s)

/-- Embedding of the logout route handler, main.py lines 67-72: when the key
is absent, redirect home leaving the session alone; otherwise pop the key and
redirect home. -/
def logout (s : Session) : Response × Session :=
  if s.userMail = none then
    (.redirect "home", s)
  else
    (.redirect "home", ⟨none⟩)

/-- Embedding of the dashboard route handler, main.py lines 76-81, registered
for GET and POST; the body never consults the method. avtr is
session.get("user-mail", "XD")[0:2].upper(). -/
def dashboard (cfg : Config) (_m : Method) (s : Session) :
    Response × Session :=
  if s.userMail ≠ some cfg.mail then
    (.redirect "login", s)
  else
    (.renderDashboard (pyUpper (pySlice2 (s.userMail.getD "XD"))), s)

/-- Embedding of the home route handler, main.py lines 26-28. -/
def home (s : Session) : Response × Session :=
  (.text "hello i am a tiny pea!!!", s)

/-- One client request: which route is hit, with its method and form body. -/
inductive Op where
  | home
  | login (m : Method) (f : Form)
  | logout
  | dashboard (m : Method)

/-- Dispatch of one request to its route handler. -/
def handle (cfg : Config) (op : Op) (s : Session) : Response × Session :=
  match op with
  | .home => home s
  | .login m f => loginRoute cfg m f s
  | .logout => logout s
  | .dashboard m => dashboard cfg m s

/-- Session state left behind by one request. -/
def stepSession (cfg : Config) (op : Op) (s : Session) : Session :=
  (handle cfg op s).2

/-- Session states reachable from a fresh session, whose key is absent,
through any sequence of requests. -/
inductive Reachable (cfg : Config) : Session → Prop where
  | base : Reachable cfg ⟨none⟩
  | step {s : Session} (op : Op) :
      Reachable cfg s → Reachable cfg (stepSession cfg op s)

/-- Glob pattern matching of the pattern *.conf of Utility.py:10 against a
single filename, with fnmatch semantics: the star matches any character
sequence, the empty one included, so a name matches exactly when it ends in
.conf. -/
def globConfMatch (name : String) : Bool :=
  ".conf".data.isSuffixOf name.data

/-- Embedding of ListConf, Utility.py lines 8-10. The filesystem is passed
explicitly: entries lists the bare names of the files directly inside d_path.
Path(d_path).glob applied to the pattern *.conf is non-recursive and yields
each matching entry as a path object carrying the directory, so str(p)
renders d_path joined with the filename, not the bare name. -/
def ListConf (d_path : String) (entries : List String) : List String :=
  (entries.filter globConfMatch).map (fun n => d_path ++ "/" ++ n)

/-- Embedding of extractServerName, Utility.py lines 13-14: the stub body is
return []. -/
def extractServerName (_conf_path : String) : List String := []

/-- C1: for every submitted pair of strings the gate checks the mail first: a
wrong mail fails with the Invalid User Email toast and leaves the session
unchanged whatever the password is, with the right mail a wrong password
fails with the Invalid User Password toast and leaves the session unchanged,
and with both right the gate stores the submitted mail under the session key
and redirects to the dashboard. -/
theorem login_two_stage (cfg : Config) (s : Session) (m p : String) :
    (m ≠ cfg.mail →
      login cfg s (some m) (some p) =
        (.renderLogin ⟨true, "error", "Invalid User Email"⟩, s))
  ∧ (m = cfg.mail → p ≠ cfg.passwd →
      login cfg s (some m) (some p) =
        (.renderLogin ⟨true, "error", "Invalid User Password"⟩, s))
  ∧ (m = cfg.mail → p = cfg.passwd →
      login cfg s (some m) (some p) = (.redirect "dashboard", ⟨some m⟩)) := by
  refine ⟨fun h => ?_, fun h1 h2 => ?_, fun h1 h2 => ?_⟩ <;>
    simp_all [login]

/-- C1 witness: the gate evaluated at one concrete wrongly-mailed pair. -/
theorem login_two_stage_witness :
    login ⟨"a@b.com", "secret123"⟩ ⟨none⟩ (some "x@y.com") (some "pw") =
      (.renderLogin ⟨true, "error", "Invalid User Email"⟩, ⟨none⟩) :=
  (login_two_stage ⟨"a@b.com", "secret123"⟩ ⟨none⟩ "x@y.com" "pw").1
    (by decide)

/-- C2: any request to /dashboard, GET or POST, whose session user-mail
value differs from expected_mail, the absent key included, is answered with a
redirect to the login page, leaves the session unchanged and never renders
the dashboard template. -/
theorem dashboard_unauthenticated (cfg : Config) (m : Method) (s : Session)
    (h : s.userMail ≠ some cfg.mail) :
    dashboard cfg m s = (.redirect "login", s)
  ∧ ∀ a, (dashboard cfg m s).1 ≠ .renderDashboard a := by
  constructor
  · simp [dashboard, h]
  · intro a
    simp [dashboard, h]

/-- C2 witness: the dashboard handler evaluated on a fresh session. -/
theorem dashboard_unauthenticated_witness :
    dashboard ⟨"a@b.com", "secret123"⟩ .get ⟨none⟩ =
      (.redirect "login", ⟨none⟩) :=
  (dashboard_unauthenticated ⟨"a@b.com", "secret123"⟩ .get ⟨none⟩
    (by decide)).1

/-- C3: in every reachable session state the user-mail key is either absent
or holds exactly expected_mail: the only operation that stores under the key
is a login whose submitted mail and password both matched, so no unverified
value is ever stored. -/
theorem reachable_userMail_verified (cfg : Config) (s : Session)
    (h : Reachable cfg s) :
    s.userMail = none ∨ s.userMail = some cfg.mail := by
  induction h with
  | base => exact Or.inl rfl
  | step op hr ih =>
    cases op with
    | home => simpa [stepSession, handle, home] using ih
    | logout =>
      simp only [stepSession, handle, logout]
      split_ifs with h1
      · exact ih
      · exact Or.inl rfl
    | dashboard m =>
      simp only [stepSession, handle, dashboard]
      split_ifs with h1
      · exact ih
      · exact ih
    | login m f =>
      simp only [stepSession, handle, loginRoute]
      split_ifs with h1
      · exact ih
      · cases m with
        | get => exact ih
        | post =>
          simp only [login]
          split_ifs with h2 h3
          · exact ih
          · exact ih
          · push_neg at h2
            exact Or.inr h2

/-- C3 witness: the state reached by one successful login holds exactly
expected_mail. -/
theorem reachable_userMail_verified_witness :
    (⟨some "a@b.com"⟩ : Session).userMail = none ∨
    (⟨some "a@b.com"⟩ : Session).userMail = some "a@b.com" :=
  reachable_userMail_verified ⟨"a@b.com", "secret123"⟩ ⟨some "a@b.com"⟩
    (by
      have h := @Reachable.step ⟨"a@b.com", "secret123"⟩ ⟨none⟩
        (Op.login .post ⟨some "a@b.com", some "secret123"⟩) Reachable.base
      have e : stepSession ⟨"a@b.com", "secret123"⟩
          (Op.login .post ⟨some "a@b.com", some "secret123"⟩) ⟨none⟩ =
          ⟨some "a@b.com"⟩ := by decide
      exact e ▸ h)

/-- C4 counterexample: with MAIL absent the process writes the critical log
entry and exits, but the bare exit() call terminates with exit status 0, not
with a non-zero code as claimed. -/
theorem startup_missing_mail_exit_zero :
    startup ⟨none, some "secret123"⟩ =
      .aborted "Env variable not found!!!" 0
  ∧ ¬ ∃ log c, startup ⟨none, some "secret123"⟩ = .aborted log c
      ∧ c ≠ 0 := by
  refine ⟨rfl, ?_⟩
  rintro ⟨log, c, heq, hne⟩
  have h0 : StartupResult.aborted log c =
      StartupResult.aborted "Env variable not found!!!" 0 :=
    heq.symm.trans rfl
  injection h0 with h1 h2
  exact hne h2

/-- C4 amended: if MAIL or PASSWD is missing at process start, startup aborts
before any route handler can run, writing the critical log entry
"Env variable not found!!!" and exiting with exit status 0, since the bare
exit() raises SystemExit(None). -/
theorem startup_missing_env_aborts (e : Env)
    (h : e.mail = none ∨ e.passwd = none) :
    startup e = .aborted "Env variable not found!!!" 0 := by
  obtain ⟨mailv, passwdv⟩ := e
  rcases h with h | h
  · subst h
    rfl
  · subst h
    cases mailv <;> rfl

/-- C4 witness: startup aborts with exit status 0 when MAIL is unset. -/
theorem startup_missing_env_aborts_witness :
    startup ⟨none, some "secret123"⟩ =
      .aborted "Env variable not found!!!" 0 :=
  startup_missing_env_aborts ⟨none, some "secret123"⟩ (Or.inl rfl)

/-- C5 counterexample: with MAIL set to the empty string the presence-only
check passes and the process starts with an empty expected_mail, so an empty
credential is not rejected. -/
theorem startup_empty_mail_starts :
    startup ⟨some "", some "secret123"⟩ = .started ⟨"", "secret123"⟩
  ∧ ¬ ∃ log c, startup ⟨some "", some "secret123"⟩ = .aborted log c := by
  refine ⟨rfl, ?_⟩
  rintro ⟨log, c, heq⟩
  exact StartupResult.noConfusion (heq.symm.trans rfl)

/-- C5 amended: startup validates only the presence of MAIL and PASSWD, not
their contents: any pair of present strings, the empty string included, is
accepted and the process starts with exactly those credentials. -/
theorem startup_presence_only (m p : String) :
    startup ⟨some m, some p⟩ = .started ⟨m, p⟩ := rfl

/-- C6: logout always redirects home and leaves the session without the
user-mail key: it removes the key when present, is a harmless no-op when the
key is absent, is idempotent on the session, and afterwards isAuthenticated
is false whatever the prior state was. -/
theorem logout_clears (cfg : Config) (s : Session) :
    (logout s).2.userMail = none
  ∧ (logout s).1 = .redirect "home"
  ∧ (logout ((logout s).2)).2 = (logout s).2
  ∧ isAuthenticated cfg ((logout s).2) = false := by
  obtain ⟨u⟩ := s
  cases u <;> simp [logout, isAuthenticated]

/-- C7: whenever the dashboard renders, that is when the stored user-mail
value equals expected_mail, the avtr context field is the first two
characters of the stored mail upper-cased, the slice taking whatever exists
with no padding when the stored mail is shorter than two characters. -/
theorem dashboard_avtr (cfg : Config) (m : Method) (s : Session)
    (h : s.userMail = some cfg.mail) :
    (dashboard cfg m s).1 = .renderDashboard (pyUpper (pySlice2 cfg.mail))
  ∧ (cfg.mail.length < 2 → pySlice2 cfg.mail = cfg.mail) := by
  constructor
  · simp [dashboard, h]
  · intro hlt
    have h2 : cfg.mail.data.length ≤ 2 := Nat.le_of_lt hlt
    simp only [pySlice2]
    exact congrArg String.mk (List.take_of_length_le h2)

/-- C7 witness: with stored mail a@b.com the rendered avtr is A@. -/
theorem dashboard_avtr_witness :
    (dashboard ⟨"a@b.com", "secret123"⟩ .get ⟨some "a@b.com"⟩).1 =
      .renderDashboard "A@" := by
  have h := (dashboard_avtr ⟨"a@b.com", "secret123"⟩ .get
    ⟨some "a@b.com"⟩ rfl).1
  rw [h]
  decide

/-- C8 counterexample: on directory /tmp/d containing files x.conf and y.txt,
ListConf returns the joined path /tmp/d/x.conf, not the bare filename x.conf
the claim states. -/
theorem ListConf_joined_not_bare :
    ListConf "/tmp/d" ["x.conf", "y.txt"] = ["/tmp/d/x.conf"]
  ∧ ListConf "/tmp/d" ["x.conf", "y.txt"] ≠ ["x.conf"] := by
  decide

/-- C8 amended: ListConf returns, non-recursively, the full paths, each the
directory path joined with the filename, of exactly the entries directly
inside the directory whose name matches the pattern *.conf; on a directory
with no matching entry it returns the empty list. -/
theorem ListConf_spec (d : String) (es : List String) :
    ((∀ n ∈ es, globConfMatch n = false) → ListConf d es = [])
  ∧ (∀ r, r ∈ ListConf d es ↔
      ∃ n, n ∈ es ∧ globConfMatch n = true ∧ r = d ++ "/" ++ n) := by
  constructor
  · intro h
    simp only [ListConf, List.map_eq_nil_iff, List.filter_eq_nil_iff]
    intro n hn
    simp [h n hn]
  · intro r
    simp only [ListConf, List.mem_map, List.mem_filter]
    constructor
    · rintro ⟨n, ⟨hn, hm⟩, hr⟩
      exact ⟨n, hn, hm, hr.symm⟩
    · rintro ⟨n, hn, hm, hr⟩
      exact ⟨n, ⟨hn, hm⟩, hr.symm⟩

/-- C8 witness: a directory with no .conf entry yields the empty list. -/
theorem ListConf_spec_witness :
    ListConf "/tmp/empty" ["y.txt", "notes.md"] = [] :=
  (ListConf_spec "/tmp/empty" ["y.txt", "notes.md"]).1 (by decide)

/-- C9: extractServerName returns the empty sequence for every input path,
reading nothing. -/
theorem extractServerName_empty (p : String) : extractServerName p = [] :=
  rfl

/-- C10: a POST whose form body lacks a field is handled totally by the gate:
an absent usr-email, read as none, never equals the expected mail, which
exists because startup succeeded, so the gate produces the Invalid User Email
rendering whatever the password field holds; with the correct mail an absent
usr-passwd produces the Invalid User Password rendering; the session is
unchanged in both cases and no error is raised. -/
theorem login_missing_fields (e : Env) (cfg : Config)
    (_hs : startup e = .started cfg) (s : Session) (pw : Option String) :
    login cfg s none pw =
      (.renderLogin ⟨true, "error", "Invalid User Email"⟩, s)
  ∧ login cfg s (some cfg.mail) none =
      (.renderLogin ⟨true, "error", "Invalid User Password"⟩, s) := by
  constructor <;> simp [login]

/-- C10 witness: the gate evaluated with both form fields missing after a
successful startup. -/
theorem login_missing_fields_witness :
    login ⟨"a@b.com", "secret123"⟩ ⟨none⟩ none none =
      (.renderLogin ⟨true, "error", "Invalid User Email"⟩, ⟨none⟩) :=
  (login_missing_fields ⟨some "a@b.com", some "secret123"⟩
    ⟨"a@b.com", "secret123"⟩ rfl ⟨none⟩ none).1

end SiteManager
